import Mathlib

/-!
Verification of the joy-kunga.stream authentication service
(`src/services/auth`): a shallow embedding of the JWT token service,
rate limiter, session manager, OAuth coordinator and the HTTP route
handlers, with theorems about token rotation, blacklisting, rate
limiting, session replacement, registration and federated login.

Modelling conventions:
- timestamps are whole seconds since epoch (`Nat`), mirroring the
  `SystemTime::now().duration_since(UNIX_EPOCH).as_secs()` reads and the
  monotone `Instant` reads of the rate limiter;
- a signed JWT string is identified with its `Claims` payload: RS256
  signing in `jsonwebtoken` is deterministic, so the encoding
  `Claims -> String` is an injective function and two tokens are equal
  exactly when their claims are; forged / undecodable strings are not
  presented in any theorem;
- the external Redis cache (`RedisPool`: set with TTL / get / delete)
  is modelled as an association list from keys to values with absolute
  expiry times; the key strings `blacklisted_token:<tok>`,
  `session:<uuid>` and `oauth_session:<csrf>` are represented by a
  `Key` inductive (the three prefixed formats never collide);
- the external Postgres user table is a `List User`; argon2 password
  hashing and verification are opaque external capabilities, passed in
  as parameters where a handler needs them;
- the `jsonwebtoken::decode` call inside `validate_token` is external
  library code; it is modelled from the spec's interface for the Token
  Service: validation succeeds and returns the claims unchanged exactly
  when `now < exp` (signature checking is the identification of tokens
  with claims above).
-/

namespace AuthService

/-- Decidable equality for `Except`, used to evaluate handler results
on concrete inputs. -/
instance instDecEqExcept {ε α : Type} [DecidableEq ε] [DecidableEq α] :
    DecidableEq (Except ε α)
  | Except.error a, Except.error b => decidable_of_iff (a = b) (by simp)
  | Except.error _, Except.ok _ => isFalse (fun h => Except.noConfusion h)
  | Except.ok _, Except.error _ => isFalse (fun h => Except.noConfusion h)
  | Except.ok a, Except.ok b => decidable_of_iff (a = b) (by simp)

/-- Token type enum from `jwt.rs` (`TokenType`): access or refresh. -/
inductive TokenType where
  | Access
  | Refresh
deriving DecidableEq, Repr

/-- JWT claims structure from `jwt.rs` (`Claims`). `sub` is the user id
(a UUID in the source, an opaque `Nat` here). -/
structure Claims where
  sub : Nat
  roles : List String
  permissions : List String
  iat : Nat
  exp : Nat
  token_type : TokenType
deriving DecidableEq, Repr

/-- JWT configuration from `jwt.rs` (`JwtConfig`), keeping only the TTL
fields the logic reads (the PEM key material configures the opaque
signing capability). -/
structure JwtConfig where
  access_token_expiry : Nat
  refresh_token_expiry : Nat
deriving DecidableEq, Repr

/-- User entity from `models/user.rs` (`User`); `id` is a UUID in the
source, opaque `Nat` here, and the chrono timestamps are seconds. -/
structure User where
  id : Nat
  username : String
  email : String
  password_hash : String
  created_at : Nat
  updated_at : Nat
deriving DecidableEq, Repr

/-- Role entity from `models/role.rs` (`Role`); the source's
`HashMap<String, bool>` permission map is an association list of
(permission key, flag) pairs. -/
structure Role where
  id : Nat
  name : String
  permissions : List (String × Bool)
deriving DecidableEq, Repr

/-- New-user creation payload from `models/user.rs` (`NewUser`). -/
structure NewUser where
  username : String
  email : String
  password_hash : String
deriving DecidableEq, Repr

/-- OAuth provider enum from `oauth.rs` (`OAuthProvider`). -/
inductive OAuthProvider where
  | Google
  | Apple
deriving DecidableEq, Repr

/-- `OAuthProvider::as_str` from `oauth.rs`. -/
def OAuthProvider.as_str : OAuthProvider → String
  | .Google => "google"
  | .Apple => "apple"

/-- OAuth handshake record from `oauth.rs` (`OAuthSession`), stored
under `oauth_session:<csrf>` in Redis. -/
structure OAuthSession where
  csrf_token : String
  pkce_verifier : String
  provider : OAuthProvider
  created_at : Nat
deriving DecidableEq, Repr

/-- Redis key space used by the auth service. The source builds string
keys by prefixing (`blacklisted_token:` in `jwt.rs`, `session:` in
`routes.rs`/`session.rs`, `oauth_session:` in `routes.rs`); the three
formats are injective and mutually disjoint, so an inductive is a
faithful model of the key strings. -/
inductive Key where
  | blacklisted_token (tok : Claims)
  | session (user_id : Nat)
  | oauth_session (csrf : String)
deriving DecidableEq, Repr

/-- Redis values stored by the auth service: the literal `"1"` of the
blacklist, a refresh-token string (identified with its claims), or a
serde-serialized `OAuthSession` (serde round-trips, so the JSON string
is identified with the record). -/
inductive KVValue where
  | str (s : String)
  | tok (t : Claims)
  | oauth (s : OAuthSession)
deriving DecidableEq, Repr

/-- The external Redis store: entries `(key, value, absolute expiry)`.
`set` with TTL prepends; `get` reads the most recent write and honours
the TTL; `delete` removes every entry for the key. -/
def KV : Type := List (Key × KVValue × Nat)

/-- `RedisPool::set(key, value, Some(ttl))`: the entry expires `ttl`
seconds after `now`. -/
def KV.set (kv : KV) (k : Key) (v : KVValue) (now ttl : Nat) : KV :=
  (k, v, now + ttl) :: kv

/-- `RedisPool::get(key)` at time `now`: the latest write for `k`, if
its TTL has not elapsed. -/
def KV.get : KV → Key → Nat → Option KVValue
  | [], _, _ => none
  | (k', v, e) :: rest, k, now =>
    if k' = k then (if now < e then some v else none) else KV.get rest k now

/-- `RedisPool::delete(key)`. -/
def KV.delete (kv : KV) (k : Key) : KV :=
  kv.filter (fun ent => !decide (ent.1 = k))

theorem KV.get_set_self (kv : KV) (k : Key) (v : KVValue) (now ttl t : Nat) :
    KV.get (KV.set kv k v now ttl) k t =
      if t < now + ttl then some v else none := by
  simp [KV.set, KV.get]

theorem KV.get_set_ne (kv : KV) {k k' : Key} (v : KVValue) (now ttl t : Nat)
    (h : k ≠ k') : KV.get (KV.set kv k v now ttl) k' t = KV.get kv k' t := by
  simp [KV.set, KV.get, h]

theorem KV.get_delete_self (kv : KV) (k : Key) (t : Nat) :
    KV.get (KV.delete kv k) k t = none := by
  induction kv with
  | nil => rfl
  | cons ent rest ih =>
    obtain ⟨k', v, e⟩ := ent
    by_cases h : k' = k
    · simpa [KV.delete, KV.get, h] using ih
    · simpa [KV.delete, KV.get, h] using ih

theorem KV.get_delete_ne (kv : KV) {k k' : Key} (t : Nat) (h : k' ≠ k) :
    KV.get (KV.delete kv k) k' t = KV.get kv k' t := by
  induction kv with
  | nil => rfl
  | cons ent rest ih =>
    obtain ⟨k'', v, e⟩ := ent
    simp only [KV.delete, List.filter_cons] at ih ⊢
    by_cases hk : k'' = k
    · subst hk
      simpa [KV.get, Ne.symm h] using ih
    · by_cases hk' : k'' = k'
      · subst hk'
        simp [KV.get, hk, ih]
      · simp [KV.get, hk, hk', ih]

/-- Rate limiter configuration from `rate_limiter.rs`
(`RateLimiterConfig`). -/
structure RateLimiterConfig where
  max_attempts : Nat
  window_seconds : Nat
  ban_duration_seconds : Nat
deriving DecidableEq, Repr

/-- `impl Default for RateLimiterConfig`: 5 attempts, 300 s window,
3600 s ban. -/
def RateLimiterConfig.default : RateLimiterConfig :=
  { max_attempts := 5, window_seconds := 300, ban_duration_seconds := 3600 }

/-- Per-key entry from `rate_limiter.rs` (`RateLimiterEntry`):
attempt count, `Instant` of the last counted attempt, optional ban
expiry `Instant` (seconds here). -/
structure RateLimiterEntry where
  attempts : Nat
  last_attempt : Nat
  ban_expires : Option Nat
deriving DecidableEq, Repr

/-- The mutex-guarded `HashMap<String, RateLimiterEntry>` of
`RateLimiter`, as a function from keys to optional entries. -/
def RLState : Type := String → Option RateLimiterEntry

/-- Second half of `RateLimiter::is_allowed` (after the ban-expiry
check): sliding-window reset, over-limit ban, or count the attempt.
`now.duration_since(last_attempt)` saturates at zero, matching `Nat`
subtraction. -/
def rl_count (cfg : RateLimiterConfig) (now : Nat) (e : RateLimiterEntry) :
    Bool × RateLimiterEntry :=
  let e := if cfg.window_seconds ≤ now - e.last_attempt then
    { e with attempts := 0 } else e
  if cfg.max_attempts ≤ e.attempts then
    (false, { e with ban_expires := some (now + cfg.ban_duration_seconds) })
  else
    (true, { e with attempts := e.attempts + 1, last_attempt := now })

/-- Body of `RateLimiter::is_allowed` for one entry: clear an expired
ban (resetting the count), reject while banned without touching the
entry, else fall through to `rl_count`. -/
def rl_step (cfg : RateLimiterConfig) (now : Nat) (e : RateLimiterEntry) :
    Bool × RateLimiterEntry :=
  match e.ban_expires with
  | some ban =>
    if ban ≤ now then rl_count cfg now { e with attempts := 0, ban_expires := none }
    else (false, e)
  | none => rl_count cfg now e

/-- `RateLimiter::is_allowed(key)` at time `now`: `entry(key).or_insert`
creates a zeroed entry stamped `now`, the body runs on it, and the
updated entry is stored back in the table. -/
def is_allowed (cfg : RateLimiterConfig) (st : RLState) (key : String)
    (now : Nat) : Bool × RLState :=
  let e := (st key).getD { attempts := 0, last_attempt := now, ban_expires := none }
  let r := rl_step cfg now e
  (r.1, fun k => if k = key then some r.2 else st k)

theorem is_allowed_fresh (st : RLState) (key : String) (now : Nat)
    (h : st key = none) :
    is_allowed RateLimiterConfig.default st key now =
      (true, fun k => if k = key then
        some { attempts := 1, last_attempt := now, ban_expires := none }
        else st k) := by
  simp [is_allowed, rl_step, rl_count, h, RateLimiterConfig.default]

theorem is_allowed_counting (st : RLState) (key : String) (now a la : Nat)
    (h : st key = some { attempts := a, last_attempt := la, ban_expires := none })
    (ha : a < 5) (hw : now - la < 300) :
    is_allowed RateLimiterConfig.default st key now =
      (true, fun k => if k = key then
        some { attempts := a + 1, last_attempt := now, ban_expires := none }
        else st k) := by
  simp [is_allowed, rl_step, rl_count, h, RateLimiterConfig.default,
    Nat.not_le.mpr hw, Nat.not_le.mpr ha]

theorem is_allowed_limit (st : RLState) (key : String) (now a la : Nat)
    (h : st key = some { attempts := a, last_attempt := la, ban_expires := none })
    (ha : 5 ≤ a) (hw : now - la < 300) :
    is_allowed RateLimiterConfig.default st key now =
      (false, fun k => if k = key then
        some { attempts := a, last_attempt := la, ban_expires := some (now + 3600) }
        else st k) := by
  simp [is_allowed, rl_step, rl_count, h, RateLimiterConfig.default,
    Nat.not_le.mpr hw, ha]

theorem is_allowed_banned (st : RLState) (key : String) (now a la b : Nat)
    (h : st key = some { attempts := a, last_attempt := la, ban_expires := some b })
    (hb : now < b) :
    is_allowed RateLimiterConfig.default st key now =
      (false, fun k => if k = key then
        some { attempts := a, last_attempt := la, ban_expires := some b }
        else st k) := by
  simp [is_allowed, rl_step, h, Nat.not_le.mpr hb]

theorem is_allowed_ban_expired (st : RLState) (key : String) (now a la b : Nat)
    (h : st key = some { attempts := a, last_attempt := la, ban_expires := some b })
    (hb : b ≤ now) :
    is_allowed RateLimiterConfig.default st key now =
      (true, fun k => if k = key then
        some { attempts := 1, last_attempt := now, ban_expires := none }
        else st k) := by
  simp only [is_allowed, rl_step, rl_count, h, Option.getD_some, hb, if_true,
    RateLimiterConfig.default]
  split <;> simp

/-- A sequence of `is_allowed` calls for one key, threading the table
state; returns the list of decisions and the final state. -/
def rl_run (cfg : RateLimiterConfig) (st : RLState) (key : String) :
    List Nat → List Bool × RLState
  | [] => ([], st)
  | t :: ts =>
    let r := is_allowed cfg st key t
    let rest := rl_run cfg r.2 key ts
    (r.1 :: rest.1, rest.2)

/-- C5: with the default configuration (max_attempts=5, window=300 s,
ban=3600 s), for every key starting with no entry, five calls to
`is_allowed` whose consecutive gaps stay under the window all return
true; the sixth returns false and records a ban expiring 3600 s later,
leaving count and timestamp untouched; every call during the ban
returns false without mutating the entry; and a call at least 3600 s
after the ban started returns true. -/
theorem rate_limiter_default_flow (st0 : RLState) (key : String)
    (t1 t2 t3 t4 t5 t6 tb tr : Nat)
    (h0 : st0 key = none)
    (h12 : t1 ≤ t2) (hw2 : t2 < t1 + 300)
    (h23 : t2 ≤ t3) (hw3 : t3 < t2 + 300)
    (h34 : t3 ≤ t4) (hw4 : t4 < t3 + 300)
    (h45 : t4 ≤ t5) (hw5 : t5 < t4 + 300)
    (h56 : t5 ≤ t6) (hw6 : t6 < t5 + 300)
    (htb : tb < t6 + 3600) (htr : t6 + 3600 ≤ tr) :
    (rl_run RateLimiterConfig.default st0 key [t1, t2, t3, t4, t5, t6]).1 =
      [true, true, true, true, true, false] ∧
    (rl_run RateLimiterConfig.default st0 key [t1, t2, t3, t4, t5, t6]).2 key =
      some { attempts := 5, last_attempt := t5, ban_expires := some (t6 + 3600) } ∧
    (is_allowed RateLimiterConfig.default
      (rl_run RateLimiterConfig.default st0 key [t1, t2, t3, t4, t5, t6]).2 key tb).1 =
      false ∧
    (is_allowed RateLimiterConfig.default
      (rl_run RateLimiterConfig.default st0 key [t1, t2, t3, t4, t5, t6]).2 key tb).2 key =
      (rl_run RateLimiterConfig.default st0 key [t1, t2, t3, t4, t5, t6]).2 key ∧
    (is_allowed RateLimiterConfig.default
      (rl_run RateLimiterConfig.default st0 key [t1, t2, t3, t4, t5, t6]).2 key tr).1 =
      true := by
  have w2 : ¬ (300 ≤ t2 - t1) := by omega
  have w3 : ¬ (300 ≤ t3 - t2) := by omega
  have w4 : ¬ (300 ≤ t4 - t3) := by omega
  have w5 : ¬ (300 ≤ t5 - t4) := by omega
  have w6 : ¬ (300 ≤ t6 - t5) := by omega
  have hrun : (rl_run RateLimiterConfig.default st0 key [t1, t2, t3, t4, t5, t6]).2 key =
      some { attempts := 5, last_attempt := t5, ban_expires := some (t6 + 3600) } := by
    simp [rl_run, is_allowed, rl_step, rl_count, RateLimiterConfig.default, h0,
      w2, w3, w4, w5, w6]
  refine ⟨?_, hrun, ?_, ?_, ?_⟩
  · simp [rl_run, is_allowed, rl_step, rl_count, RateLimiterConfig.default, h0,
      w2, w3, w4, w5, w6]
  · rw [is_allowed_banned _ key tb 5 t5 (t6 + 3600) hrun htb]
  · rw [is_allowed_banned _ key tb 5 t5 (t6 + 3600) hrun htb, hrun]
    simp
  · rw [is_allowed_ban_expired _ key tr 5 t5 (t6 + 3600) hrun htr]

/-- C5 witness: the flow above at key "k", call times 0,1,2,3,4,5, a
banned-phase probe at 100 and a recovery probe at 3605. -/
theorem rate_limiter_default_flow_witness :
    (rl_run RateLimiterConfig.default (fun _ => none) "k" [0, 1, 2, 3, 4, 5]).1 =
      [true, true, true, true, true, false] ∧
    (rl_run RateLimiterConfig.default (fun _ => none) "k" [0, 1, 2, 3, 4, 5]).2 "k" =
      some { attempts := 5, last_attempt := 4, ban_expires := some (5 + 3600) } ∧
    (is_allowed RateLimiterConfig.default
      (rl_run RateLimiterConfig.default (fun _ => none) "k" [0, 1, 2, 3, 4, 5]).2 "k" 100).1 =
      false ∧
    (is_allowed RateLimiterConfig.default
      (rl_run RateLimiterConfig.default (fun _ => none) "k" [0, 1, 2, 3, 4, 5]).2 "k" 100).2 "k" =
      (rl_run RateLimiterConfig.default (fun _ => none) "k" [0, 1, 2, 3, 4, 5]).2 "k" ∧
    (is_allowed RateLimiterConfig.default
      (rl_run RateLimiterConfig.default (fun _ => none) "k" [0, 1, 2, 3, 4, 5]).2 "k" 3605).1 =
      true :=
  rate_limiter_default_flow (fun _ => none) "k" 0 1 2 3 4 5 100 3605 rfl
    (by omega) (by omega) (by omega) (by omega) (by omega) (by omega)
    (by omega) (by omega) (by omega) (by omega) (by omega) (by omega)

/-- C6: sliding reset — for a key with N < 5 recorded attempts and no
ban, a call made at least `window` seconds after the last attempt is
allowed and leaves the count at 1 (this attempt counted), not N + 1. -/
theorem rate_limiter_sliding_reset (st : RLState) (key : String) (now a la : Nat)
    (h : st key = some { attempts := a, last_attempt := la, ban_expires := none })
    (hN : a < 5) (hw : la + 300 ≤ now) :
    (is_allowed RateLimiterConfig.default st key now).1 = true ∧
    (is_allowed RateLimiterConfig.default st key now).2 key =
      some { attempts := 1, last_attempt := now, ban_expires := none } := by
  have w : 300 ≤ now - la := by omega
  constructor
  · simp [is_allowed, rl_step, rl_count, RateLimiterConfig.default, h, w]
  · simp [is_allowed, rl_step, rl_count, RateLimiterConfig.default, h, w]

/-- C6 witness: a key with 4 attempts, last at time 10, probed at time
400 (≥ 310): allowed with the count reset to 1. -/
theorem rate_limiter_sliding_reset_witness :
    (is_allowed RateLimiterConfig.default
      (fun _ => some { attempts := 4, last_attempt := 10, ban_expires := none })
      "k" 400).1 = true ∧
    (is_allowed RateLimiterConfig.default
      (fun _ => some { attempts := 4, last_attempt := 10, ban_expires := none })
      "k" 400).2 "k" =
      some { attempts := 1, last_attempt := 400, ban_expires := none } :=
  rate_limiter_sliding_reset
    (fun _ => some { attempts := 4, last_attempt := 10, ban_expires := none })
    "k" 400 4 10 rfl (by omega) (by omega)

/-- `JwtService::generate_access_token(user, roles)` at time `now`
(`jwt.rs` lines 146-173): kind Access, `iat = now`,
`exp = now + access_token_expiry`, `roles` = role names in order,
`permissions` = the concatenation of each role's permission-map keys
(`flat_map(|r| r.permissions.keys())` collected into a `Vec`). -/
def generate_access_token (cfg : JwtConfig) (now : Nat) (user : User)
    (roles : List Role) : Claims :=
  { sub := user.id
    roles := roles.map (fun r => r.name)
    permissions := roles.flatMap (fun r => r.permissions.map (fun p => p.1))
    iat := now
    exp := now + cfg.access_token_expiry
    token_type := TokenType.Access }

/-- `JwtService::generate_refresh_token(user)` at time `now`: kind
Refresh, empty roles and permissions, `exp = now +
refresh_token_expiry`. -/
def generate_refresh_token (cfg : JwtConfig) (now : Nat) (user : User) : Claims :=
  { sub := user.id
    roles := []
    permissions := []
    iat := now
    exp := now + cfg.refresh_token_expiry
    token_type := TokenType.Refresh }

/-- `JwtService::validate_token`. Modelled from the spec: the body is a
single call into the external `jsonwebtoken::decode` with
`validate_exp = true`; per the Token Service interface it verifies the
signature (tokens are identified with their claims, see the header
comment) and returns the claims unchanged exactly when `now < exp`. -/
def validate_token (now : Nat) (tok : Claims) : Option Claims :=
  if now < tok.exp then some tok else none

/-- `JwtService::is_token_blacklisted`: existence check of the Redis
key `blacklisted_token:<token>`. -/
def is_token_blacklisted (kv : KV) (tok : Claims) (now : Nat) : Bool :=
  (KV.get kv (Key.blacklisted_token tok) now).isSome

/-- `JwtService::blacklist_token`: writes `blacklisted_token:<token> ->
"1"` with the given TTL. -/
def blacklist_token (kv : KV) (tok : Claims) (expiry now : Nat) : KV :=
  KV.set kv (Key.blacklisted_token tok) (KVValue.str "1") now expiry

/-- `JwtService::rotate_refresh_token(user, old)` at time `now`
(`jwt.rs` lines 241-293): validate the old token, require kind Refresh
and `sub = user.id`, blacklist the old token for its remaining lifetime
`exp - now` (saturating), then issue a fresh refresh token. -/
def rotate_refresh_token (cfg : JwtConfig) (kv : KV) (now : Nat) (user : User)
    (old : Claims) : Except String (Claims × KV) :=
  match validate_token now old with
  | none => Except.error "invalid token"
  | some claims =>
    if claims.token_type ≠ TokenType.Refresh then
      Except.error "Token is not a refresh token"
    else if claims.sub ≠ user.id then
      Except.error "Token does not belong to user"
    else
      let expiry := claims.exp - now
      let kv' := blacklist_token kv old expiry now
      Except.ok (generate_refresh_token cfg now user, kv')

/-- Error type of the route handlers, from `routes.rs` (`AuthError`).
There is no Conflict variant. -/
inductive AuthError where
  | Unauthorized
  | BadRequest (msg : String)
  | InternalServerError
deriving DecidableEq, Repr

/-- HTTP status produced by `impl IntoResponse for AuthError`:
401, 400 and 500 respectively. -/
def AuthError.status : AuthError → Nat
  | .Unauthorized => 401
  | .BadRequest _ => 400
  | .InternalServerError => 500

/-- `validation::validate_username`: length 3..=32 (byte length in the
source; the inputs here are ASCII, where byte and character length
agree) and characters from `[a-zA-Z0-9_]`. -/
def validate_username (username : String) : Except String Unit :=
  if username.isEmpty then Except.error "Username is required"
  else if username.length < 3 then
    Except.error "Username must be at least 3 characters long"
  else if 32 < username.length then
    Except.error "Username must be at most 32 characters long"
  else if !(username.toList.all fun c => c.isAlphanum || c == '_') then
    Except.error "Username can only contain letters, numbers, and underscores"
  else Except.ok ()

/-- Character class `[a-zA-Z0-9._%+-]` of the email regex's local
part. -/
def isLocalChar (c : Char) : Bool :=
  c.isAlphanum || c == '.' || c == '_' || c == '%' || c == '+' || c == '-'

/-- Character class `[a-zA-Z0-9.-]` of the email regex's domain
part. -/
def isDomainChar (c : Char) : Bool :=
  c.isAlphanum || c == '.' || c == '-'

/-- Anchored match of the email regex
`[a-zA-Z0-9._%+-]+@[a-zA-Z0-9.-]+\.[a-zA-Z]` followed by at least one
more letter: the string splits as a nonempty local part, an `@`, a
nonempty domain part, a dot and a top-level part of 2 or more letters.
Neither class contains `@`, so the decomposition at the `@` position
and the dot position is exhaustive. -/
def email_regex_matches (s : String) : Bool :=
  let cs := s.toList
  (List.range cs.length).any fun ai =>
    decide (cs.getD ai ' ' = '@') &&
    decide (0 < ai) &&
    (cs.take ai).all isLocalChar &&
    ((List.range cs.length).any fun di =>
      decide (ai + 1 < di) &&
      decide (cs.getD di ' ' = '.') &&
      ((cs.drop (ai + 1)).take (di - ai - 1)).all isDomainChar &&
      decide (di + 3 ≤ cs.length) &&
      (cs.drop (di + 1)).all Char.isAlpha)

/-- `validation::validate_email`: nonempty, at most 254 bytes (ASCII
inputs here), and matching the email regex. -/
def validate_email (email : String) : Except String Unit :=
  if email.isEmpty then Except.error "Email is required"
  else if 254 < email.length then
    Except.error "Email must be at most 254 characters long"
  else if !email_regex_matches email then Except.error "Invalid email format"
  else Except.ok ()

/-- `validation::validate_password`: length 8..=128 and, via the
per-character else-if chain, at least one ASCII uppercase, one ASCII
lowercase, one ASCII digit and one non-alphanumeric character. -/
def validate_password (password : String) : Except String Unit :=
  if password.isEmpty then Except.error "Password is required"
  else if password.length < 8 then
    Except.error "Password must be at least 8 characters long"
  else if 128 < password.length then
    Except.error "Password must be at most 128 characters long"
  else
    let cs := password.toList
    let has_upper := cs.any Char.isUpper
    let has_lower := cs.any fun c => !c.isUpper && c.isLower
    let has_digit := cs.any fun c => !c.isUpper && !c.isLower && c.isDigit
    let has_special := cs.any fun c =>
      !c.isUpper && !c.isLower && !c.isDigit && !c.isAlphanum
    if !has_upper then
      Except.error "Password must contain at least one uppercase letter"
    else if !has_lower then
      Except.error "Password must contain at least one lowercase letter"
    else if !has_digit then
      Except.error "Password must contain at least one digit"
    else if !has_special then
      Except.error "Password must contain at least one special character"
    else Except.ok ()

/-- `UserRepository::find_by_username_or_email`: the SQL
`WHERE username = $1 OR email = $1` over the external user table. -/
def find_by_username_or_email (db : List User) (s : String) : Option User :=
  db.find? fun u => u.username == s || u.email == s

/-- `UserRepository::create`: inserts a row and returns it. The UUID
the database assigns is modelled as the table size; the argon2 digest
of the submitted password is an opaque external value, kept as the
`NewUser` field. -/
def create_user (db : List User) (nu : NewUser) : User × List User :=
  let u : User :=
    { id := db.length, username := nu.username, email := nu.email
      password_hash := nu.password_hash, created_at := 0, updated_at := 0 }
  (u, db ++ [u])

/-- Request body of `POST /auth/register` (`RegisterRequest`). -/
structure RegisterRequest where
  username : String
  email : String
  password : String
deriving DecidableEq, Repr

/-- Request body of `POST /auth/login` (`LoginRequest`). -/
structure LoginRequest where
  username_or_email : String
  password : String
deriving DecidableEq, Repr

/-- Response body of a successful login (`TokenGenerationResponse`). -/
structure TokenGenerationResponse where
  access_token : Claims
  refresh_token : Claims
  token_type : String
  expires_in : Nat
deriving DecidableEq, Repr

/-- Response body of a successful refresh (`TokenRefreshResponse`):
only the new access token is serialized back to the client. -/
structure TokenRefreshResponse where
  access_token : Claims
  token_type : String
  expires_in : Nat
deriving DecidableEq, Repr

/-- The `register` handler (`routes.rs` lines 107-161): validate the
three fields, reject when `find_by_username_or_email` hits for the
username or for the email (each with `AuthError::BadRequest`), else
create the user. Returns the created user's id (HTTP 201) and the
user table after the call. -/
def register (db : List User) (payload : RegisterRequest) :
    Except AuthError Nat × List User :=
  match validate_username payload.username with
  | Except.error e => (Except.error (AuthError.BadRequest e), db)
  | Except.ok _ =>
  match validate_email payload.email with
  | Except.error e => (Except.error (AuthError.BadRequest e), db)
  | Except.ok _ =>
  match validate_password payload.password with
  | Except.error e => (Except.error (AuthError.BadRequest e), db)
  | Except.ok _ =>
  match find_by_username_or_email db payload.username with
  | some _ => (Except.error (AuthError.BadRequest "Username already exists"), db)
  | none =>
  match find_by_username_or_email db payload.email with
  | some _ => (Except.error (AuthError.BadRequest "Email already exists"), db)
  | none =>
    let r := create_user db
      { username := payload.username, email := payload.email
        password_hash := payload.password }
    (Except.ok r.1.id, r.2)

/-- The `login` handler (`routes.rs` lines 164-247): empty-field
checks, user lookup, argon2 verification (an opaque external
capability passed as `verify`), then a token pair and the session
write `session:<id> -> refresh` with the refresh TTL. No rate-limiter
call appears anywhere in this pipeline. -/
def login (db : List User) (verify : User → String → Bool) (cfg : JwtConfig)
    (kv : KV) (now : Nat) (payload : LoginRequest) :
    Except AuthError TokenGenerationResponse × KV :=
  if payload.username_or_email.isEmpty then
    (Except.error (AuthError.BadRequest "Username or email is required"), kv)
  else if payload.password.isEmpty then
    (Except.error (AuthError.BadRequest "Password is required"), kv)
  else
  match find_by_username_or_email db payload.username_or_email with
  | none => (Except.error AuthError.Unauthorized, kv)
  | some user =>
    if !verify user payload.password then
      (Except.error AuthError.Unauthorized, kv)
    else
      let access_token := generate_access_token cfg now user []
      let refresh_tok := generate_refresh_token cfg now user
      let kv' := KV.set kv (Key.session user.id) (KVValue.tok refresh_tok)
        now cfg.refresh_token_expiry
      (Except.ok
        { access_token := access_token, refresh_token := refresh_tok
          token_type := "Bearer", expires_in := cfg.access_token_expiry }, kv')

/-- The mock user the `refresh_token` handler builds from the claims
(`routes.rs` lines 283-290). -/
def mock_user (sub : Nat) (now : Nat) : User :=
  { id := sub, username := "mock_user", email := "mock@example.com"
    password_hash := "mock_hash", created_at := now, updated_at := now }

/-- The `refresh_token` handler (`routes.rs` lines 250-333): validate
the presented token, require kind Refresh, reject blacklisted tokens
(`Unauthorized`), build the mock user from `sub`, issue a new access
token, rotate the refresh token (which blacklists the old one), and
overwrite `session:<sub>` with the new refresh token. The stored
session record is never read on this path. -/
def refresh_token (cfg : JwtConfig) (kv : KV) (now : Nat) (tok : Claims) :
    Except AuthError TokenRefreshResponse × KV :=
  match validate_token now tok with
  | none => (Except.error AuthError.Unauthorized, kv)
  | some claims =>
    if claims.token_type ≠ TokenType.Refresh then
      (Except.error AuthError.Unauthorized, kv)
    else if is_token_blacklisted kv tok now then
      (Except.error AuthError.Unauthorized, kv)
    else
      let user := mock_user claims.sub now
      let access_token := generate_access_token cfg now user []
      match rotate_refresh_token cfg kv now user tok with
      | Except.error _ => (Except.error AuthError.InternalServerError, kv)
      | Except.ok (new_refresh, kv1) =>
        let kv2 := KV.set kv1 (Key.session user.id) (KVValue.tok new_refresh)
          now cfg.refresh_token_expiry
        (Except.ok
          { access_token := access_token, token_type := "Bearer"
            expires_in := cfg.access_token_expiry }, kv2)

/-- `SessionManager::create_session` (`session.rs` lines 26-39):
writes `session:<user_id> -> refresh_token` with the refresh TTL
(`update_session` has the identical body). -/
def create_session (cfg : JwtConfig) (kv : KV) (user_id : Nat)
    (refresh_tok : Claims) (now : Nat) : KV :=
  KV.set kv (Key.session user_id) (KVValue.tok refresh_tok) now
    cfg.refresh_token_expiry

/-- `SessionManager::get_session`. -/
def get_session (kv : KV) (user_id : Nat) (now : Nat) : Option KVValue :=
  KV.get kv (Key.session user_id) now

/-- `SessionManager::is_session_valid` (`session.rs` lines 89-98):
string equality of the stored refresh token against the presented one;
false when no record exists. A stored session value is always a token
string; the other value forms never compare equal to one. -/
def is_session_valid (kv : KV) (user_id : Nat) (refresh_tok : Claims)
    (now : Nat) : Bool :=
  match get_session kv user_id now with
  | some (KVValue.tok stored) => stored = refresh_tok
  | some _ => false
  | none => false

/-- `SessionManager::delete_session`. -/
def delete_session (kv : KV) (user_id : Nat) : KV :=
  KV.delete kv (Key.session user_id)

/-- Google profile response fields from `oauth.rs` (`GoogleUser`). -/
structure GoogleUser where
  id : String
  email : String
  verified_email : Bool
  given_name : String
  family_name : String
deriving DecidableEq, Repr

/-- Profile produced by the providers, from `oauth.rs`
(`OAuthUserProfile`). -/
structure OAuthUserProfile where
  id : String
  email : String
  name : Option String
  verified_email : Bool
  provider : OAuthProvider
deriving DecidableEq, Repr

/-- `OAuthClient::get_apple_user_profile` (`oauth.rs` lines 173-184):
Apple has no user-info endpoint, so the source returns a fixed profile
whose id is the access-token string itself, email
"apple_user@example.com", no name and verified_email = true. -/
def get_apple_user_profile (access_token : String) : OAuthUserProfile :=
  { id := access_token, email := "apple_user@example.com", name := none
    verified_email := true, provider := OAuthProvider.Apple }

/-- External collaborators of the OAuth callback: whether each
provider's client is configured, the provider's code-for-token
exchange (code, PKCE verifier ↦ provider access token, `none` =
network/provider failure), and Google's user-info endpoint. -/
structure OAuthEnv where
  has_google_client : Bool
  has_apple_client : Bool
  exchange_code : OAuthProvider → String → String → Option String
  google_userinfo : String → Option GoogleUser

/-- `OAuthClient::get_user_profile`: dispatch per provider; the Google
path calls the user-info endpoint and assembles the profile, the Apple
path is the constant profile above. -/
def get_user_profile (env : OAuthEnv) (provider : OAuthProvider)
    (access_token : String) : Option OAuthUserProfile :=
  match provider with
  | OAuthProvider.Google =>
    match env.google_userinfo access_token with
    | none => none
    | some g =>
      some { id := g.id, email := g.email
             name := some (g.given_name ++ " " ++ g.family_name)
             verified_email := g.verified_email
             provider := OAuthProvider.Google }
  | OAuthProvider.Apple => some (get_apple_user_profile access_token)

/-- Request body of `POST /auth/oauth/callback`
(`OAuthCallbackRequest`). -/
structure OAuthCallbackRequest where
  code : Option String
  state : Option String
  error : Option String
  error_description : Option String
deriving DecidableEq, Repr

/-- Response of a successful OAuth callback (the JSON object built at
the end of `oauth_callback`). -/
structure OAuthCallbackResponse where
  access_token : Claims
  refresh_token : Claims
  expires_in : Nat
  user_id : Nat
  email : String
  provider : OAuthProvider
deriving DecidableEq, Repr

/-- The `oauth_callback` handler (`routes.rs` lines 471-622): reject
provider errors and missing code/state; look up
`oauth_session:<state>`, failing with `BadRequest "Invalid or expired
OAuth session"` when absent; deserialize it (a non-`OAuthSession`
value fails deserialization into `InternalServerError` before the
delete); delete the record (single use) before the code exchange;
exchange the code with the PKCE verifier; fetch the profile; find or
create the local account by the profile email; issue a token pair and
write `session:<id>`. Returns the result together with the Redis and
user-table states after the call. -/
def oauth_callback (env : OAuthEnv) (cfg : JwtConfig) (db : List User)
    (kv : KV) (now : Nat) (payload : OAuthCallbackRequest) :
    Except AuthError OAuthCallbackResponse × KV × List User :=
  match payload.error with
  | some e =>
    (Except.error (AuthError.BadRequest ("OAuth error: " ++ e)), kv, db)
  | none =>
  match payload.code with
  | none => (Except.error (AuthError.BadRequest "Missing authorization code"), kv, db)
  | some code =>
  match payload.state with
  | none => (Except.error (AuthError.BadRequest "Missing state parameter"), kv, db)
  | some state_param =>
  match KV.get kv (Key.oauth_session state_param) now with
  | none =>
    (Except.error (AuthError.BadRequest "Invalid or expired OAuth session"), kv, db)
  | some (KVValue.str _) => (Except.error AuthError.InternalServerError, kv, db)
  | some (KVValue.tok _) => (Except.error AuthError.InternalServerError, kv, db)
  | some (KVValue.oauth session) =>
    let kv1 := KV.delete kv (Key.oauth_session state_param)
    let client_present :=
      match session.provider with
      | OAuthProvider.Google => env.has_google_client
      | OAuthProvider.Apple => env.has_apple_client
    if !client_present then (Except.error AuthError.InternalServerError, kv1, db)
    else
    match env.exchange_code session.provider code session.pkce_verifier with
    | none => (Except.error AuthError.InternalServerError, kv1, db)
    | some provider_token =>
    match get_user_profile env session.provider provider_token with
    | none => (Except.error AuthError.InternalServerError, kv1, db)
    | some profile =>
      let found := find_by_username_or_email db profile.email
      let userdb :=
        match found with
        | some user => (user, db)
        | none =>
          create_user db
            { username := session.provider.as_str ++ "_" ++ profile.id
              email := profile.email, password_hash := "" }
      let user := userdb.1
      let db1 := userdb.2
      let access_token := generate_access_token cfg now user []
      let refresh_tok := generate_refresh_token cfg now user
      let kv2 := KV.set kv1 (Key.session user.id) (KVValue.tok refresh_tok)
        now cfg.refresh_token_expiry
      (Except.ok
        { access_token := access_token, refresh_token := refresh_tok
          expires_in := cfg.access_token_expiry, user_id := user.id
          email := user.email, provider := session.provider }, kv2, db1)

/-- C10: the Apple provider's profile fetch is constant up to the id
field — for every access-token string it returns id = the token
string, email "apple_user@example.com", no name, verified_email true
(both directly and through the provider dispatch), so every Apple
federated login resolves to the same local account email. -/
theorem apple_profile_constant (access_token : String) (env : OAuthEnv) :
    get_apple_user_profile access_token =
      { id := access_token, email := "apple_user@example.com", name := none
        verified_email := true, provider := OAuthProvider.Apple } ∧
    get_user_profile env OAuthProvider.Apple access_token =
      some { id := access_token, email := "apple_user@example.com", name := none
             verified_email := true, provider := OAuthProvider.Apple } :=
  ⟨rfl, rfl⟩

/-- C4 (amended): the access token issued at time `t` carries kind
Access, `iat = t`, `exp = t + access_ttl`, the role names in order,
and as permissions the concatenation of the permission keys of each
granted role — the same set as the union of the roles' permission
keys, but with duplicates kept when several roles grant the same key;
validating it succeeds, returning the claims unchanged, exactly when
the validation time is before `exp`. -/
theorem issue_access_validate (cfg : JwtConfig) (u : User) (roles : List Role)
    (t tv : Nat) :
    (generate_access_token cfg t u roles).token_type = TokenType.Access ∧
    (generate_access_token cfg t u roles).iat = t ∧
    (generate_access_token cfg t u roles).exp = t + cfg.access_token_expiry ∧
    (generate_access_token cfg t u roles).roles =
      roles.map (fun r => r.name) ∧
    (generate_access_token cfg t u roles).permissions =
      roles.flatMap (fun r => r.permissions.map (fun p => p.1)) ∧
    (∀ p, p ∈ (generate_access_token cfg t u roles).permissions ↔
      ∃ r ∈ roles, ∃ b, (p, b) ∈ r.permissions) ∧
    validate_token tv (generate_access_token cfg t u roles) =
      (if tv < t + cfg.access_token_expiry
       then some (generate_access_token cfg t u roles) else none) := by
  refine ⟨rfl, rfl, rfl, rfl, rfl, ?_, ?_⟩
  · intro p
    simp [generate_access_token, List.mem_flatMap, List.mem_map, Prod.exists]
  · simp [validate_token, generate_access_token]

/-- C4 counterexample: two roles both granting the key "read" — the
issued token's permission list is ["read", "read"], which is not a
duplicate-free union as the claim states. -/
theorem issue_access_union_counterexample :
    (generate_access_token
      { access_token_expiry := 900, refresh_token_expiry := 604800 } 0
      { id := 7, username := "alice", email := "alice@example.com"
        password_hash := "h", created_at := 0, updated_at := 0 }
      [{ id := 1, name := "r1", permissions := [("read", true)] },
       { id := 2, name := "r2", permissions := [("read", true)] }]).permissions =
      ["read", "read"] ∧
    ¬ (generate_access_token
      { access_token_expiry := 900, refresh_token_expiry := 604800 } 0
      { id := 7, username := "alice", email := "alice@example.com"
        password_hash := "h", created_at := 0, updated_at := 0 }
      [{ id := 1, name := "r1", permissions := [("read", true)] },
       { id := 2, name := "r2", permissions := [("read", true)] }]).permissions.Nodup := by
  constructor
  · rfl
  · decide

/-- C7 (amended): session replacement is last-write-wins for distinct
tokens — writing session T1 then T2 for user u leaves `get` returning
T2 (while the record's TTL has not elapsed); when T1 ≠ T2,
`is_session_valid` then rejects T1 and accepts T2. (As literally
stated, over all tokens, the claim fails at T1 = T2.) -/
theorem session_replacement (cfg : JwtConfig) (kv : KV) (u : Nat)
    (T1 T2 : Claims) (t1 t2 tr : Nat) (hne : T1 ≠ T2)
    (hr : tr < t2 + cfg.refresh_token_expiry) :
    get_session (create_session cfg (create_session cfg kv u T1 t1) u T2 t2) u tr =
      some (KVValue.tok T2) ∧
    is_session_valid (create_session cfg (create_session cfg kv u T1 t1) u T2 t2)
      u T1 tr = false ∧
    is_session_valid (create_session cfg (create_session cfg kv u T1 t1) u T2 t2)
      u T2 tr = true := by
  have hg : get_session (create_session cfg (create_session cfg kv u T1 t1) u T2 t2) u tr =
      some (KVValue.tok T2) := by
    simp [get_session, create_session, KV.get_set_self, hr]
  refine ⟨hg, ?_, ?_⟩
  · simp [is_session_valid, hg, Ne.symm hne]
  · simp [is_session_valid, hg]

/-- C7 witness: distinct refresh tokens (iat 0 and 1) for user 0,
written at times 0 and 1, read at time 1. -/
theorem session_replacement_witness :
    get_session (create_session
        { access_token_expiry := 900, refresh_token_expiry := 604800 }
        (create_session { access_token_expiry := 900, refresh_token_expiry := 604800 }
          [] 0 { sub := 0, roles := [], permissions := [], iat := 0, exp := 604800
                 token_type := TokenType.Refresh } 0)
        0 { sub := 0, roles := [], permissions := [], iat := 1, exp := 604801
            token_type := TokenType.Refresh } 1) 0 1 =
      some (KVValue.tok { sub := 0, roles := [], permissions := [], iat := 1
                          exp := 604801, token_type := TokenType.Refresh }) ∧
    is_session_valid (create_session
        { access_token_expiry := 900, refresh_token_expiry := 604800 }
        (create_session { access_token_expiry := 900, refresh_token_expiry := 604800 }
          [] 0 { sub := 0, roles := [], permissions := [], iat := 0, exp := 604800
                 token_type := TokenType.Refresh } 0)
        0 { sub := 0, roles := [], permissions := [], iat := 1, exp := 604801
            token_type := TokenType.Refresh } 1) 0
      { sub := 0, roles := [], permissions := [], iat := 0, exp := 604800
        token_type := TokenType.Refresh } 1 = false ∧
    is_session_valid (create_session
        { access_token_expiry := 900, refresh_token_expiry := 604800 }
        (create_session { access_token_expiry := 900, refresh_token_expiry := 604800 }
          [] 0 { sub := 0, roles := [], permissions := [], iat := 0, exp := 604800
                 token_type := TokenType.Refresh } 0)
        0 { sub := 0, roles := [], permissions := [], iat := 1, exp := 604801
            token_type := TokenType.Refresh } 1) 0
      { sub := 0, roles := [], permissions := [], iat := 1, exp := 604801
        token_type := TokenType.Refresh } 1 = true :=
  session_replacement { access_token_expiry := 900, refresh_token_expiry := 604800 }
    [] 0
    { sub := 0, roles := [], permissions := [], iat := 0, exp := 604800
      token_type := TokenType.Refresh }
    { sub := 0, roles := [], permissions := [], iat := 1, exp := 604801
      token_type := TokenType.Refresh }
    0 1 1 (by decide) (by decide)

/-- C7 counterexample: at T1 = T2 = T the claim's clause
"is_current(u, T1) is false" fails — after writing T then T again, the
stored token still equals T, so `is_session_valid` returns true. -/
theorem session_replacement_counterexample :
    is_session_valid (create_session
        { access_token_expiry := 900, refresh_token_expiry := 604800 }
        (create_session { access_token_expiry := 900, refresh_token_expiry := 604800 }
          [] 0 { sub := 0, roles := [], permissions := [], iat := 0, exp := 604800
                 token_type := TokenType.Refresh } 0)
        0 { sub := 0, roles := [], permissions := [], iat := 0, exp := 604800
            token_type := TokenType.Refresh } 0) 0
      { sub := 0, roles := [], permissions := [], iat := 0, exp := 604800
        token_type := TokenType.Refresh } 0 = true ∧
    ¬ is_session_valid (create_session
        { access_token_expiry := 900, refresh_token_expiry := 604800 }
        (create_session { access_token_expiry := 900, refresh_token_expiry := 604800 }
          [] 0 { sub := 0, roles := [], permissions := [], iat := 0, exp := 604800
                 token_type := TokenType.Refresh } 0)
        0 { sub := 0, roles := [], permissions := [], iat := 0, exp := 604800
            token_type := TokenType.Refresh } 0) 0
      { sub := 0, roles := [], permissions := [], iat := 0, exp := 604800
        token_type := TokenType.Refresh } 0 = false := by
  constructor
  · rfl
  · decide


theorem key_session_ne_blacklisted (uid : Nat) (T : Claims) :
    Key.session uid ≠ Key.blacklisted_token T := by
  intro h
  cases h

/-- Concrete JWT configuration with the documented default TTLs
(900 s access, 604800 s refresh), used by the concrete instances
below. -/
def cfg0 : JwtConfig :=
  { access_token_expiry := 900, refresh_token_expiry := 604800 }

/-- A concrete registered user, used by the concrete instances
below. -/
def alice : User :=
  { id := 7, username := "alice", email := "alice@example.com"
    password_hash := "h", created_at := 0, updated_at := 0 }

/-- C1: refresh-token rotation is single use. For a refresh token T the
service issued (not blacklisted, unexpired at the first call), the
first refresh presenting T succeeds and stores the newly issued
refresh token in the session record; any subsequent refresh presenting
the same T fails with Unauthorized, T being blacklisted for its whole
remaining lifetime. -/
theorem rotation_single_use (cfg : JwtConfig) (kv0 : KV) (u : User)
    (t0 t1 t2 : Nat) (T : Claims)
    (hT : T = generate_refresh_token cfg t0 u)
    (hbl : KV.get kv0 (Key.blacklisted_token T) t1 = none)
    (h1 : t1 < T.exp) (h12 : t1 ≤ t2) (hpos : 0 < cfg.refresh_token_expiry) :
    (refresh_token cfg kv0 t1 T).1 =
      Except.ok { access_token := generate_access_token cfg t1 (mock_user u.id t1) []
                  token_type := "Bearer", expires_in := cfg.access_token_expiry } ∧
    KV.get (refresh_token cfg kv0 t1 T).2 (Key.session u.id) t1 =
      some (KVValue.tok (generate_refresh_token cfg t1 u)) ∧
    (refresh_token cfg (refresh_token cfg kv0 t1 T).2 t2 T).1 =
      Except.error AuthError.Unauthorized ∧
    (t2 < T.exp → is_token_blacklisted (refresh_token cfg kv0 t1 T).2 T t2 = true) := by
  have htype : T.token_type = TokenType.Refresh := by rw [hT]; rfl
  have hsub : T.sub = u.id := by rw [hT]; rfl
  have hnotbl : is_token_blacklisted kv0 T t1 = false := by
    simp [is_token_blacklisted, hbl]
  have hkv : (refresh_token cfg kv0 t1 T).2 =
      KV.set (blacklist_token kv0 T (T.exp - t1) t1) (Key.session u.id)
        (KVValue.tok (generate_refresh_token cfg t1 u)) t1
        cfg.refresh_token_expiry := by
    simp [refresh_token, validate_token, h1, htype, hnotbl,
      rotate_refresh_token, mock_user, hsub, generate_refresh_token]
  have hok : (refresh_token cfg kv0 t1 T).1 =
      Except.ok { access_token := generate_access_token cfg t1 (mock_user u.id t1) []
                  token_type := "Bearer", expires_in := cfg.access_token_expiry } := by
    simp [refresh_token, validate_token, h1, htype, hnotbl,
      rotate_refresh_token, mock_user, hsub]
  have harith : t1 + (T.exp - t1) = T.exp := by omega
  have hbl2 : ∀ t, KV.get (refresh_token cfg kv0 t1 T).2 (Key.blacklisted_token T) t =
      (if t < T.exp then some (KVValue.str "1") else none) := by
    intro t
    rw [hkv, KV.get_set_ne _ _ _ _ _ (key_session_ne_blacklisted u.id T),
      blacklist_token, KV.get_set_self, harith]
  have hsecond : ∀ kv2 : KV,
      (t2 < T.exp → is_token_blacklisted kv2 T t2 = true) →
      (refresh_token cfg kv2 t2 T).1 = Except.error AuthError.Unauthorized := by
    intro kv2 hb
    by_cases h2 : t2 < T.exp
    · simp [refresh_token, validate_token, h2, htype, hb h2]
    · simp [refresh_token, validate_token, h2]
  have hblacklisted : t2 < T.exp → is_token_blacklisted (refresh_token cfg kv0 t1 T).2 T t2 = true := by
    intro h2
    simp [is_token_blacklisted, hbl2, h2]
  refine ⟨hok, ?_, hsecond _ hblacklisted, hblacklisted⟩
  rw [hkv, KV.get_set_self]
  have hlt : t1 < t1 + cfg.refresh_token_expiry := by omega
  simp [hlt]

/-- C1 witness: user alice, a refresh token issued at time 0 with the
default TTLs, first refresh at time 1, replay at time 2 on an
initially empty Redis. -/
theorem rotation_single_use_witness :
    (refresh_token cfg0 [] 1 (generate_refresh_token cfg0 0 alice)).1 =
      Except.ok { access_token := generate_access_token cfg0 1 (mock_user alice.id 1) []
                  token_type := "Bearer", expires_in := cfg0.access_token_expiry } ∧
    KV.get (refresh_token cfg0 [] 1 (generate_refresh_token cfg0 0 alice)).2
      (Key.session alice.id) 1 =
      some (KVValue.tok (generate_refresh_token cfg0 1 alice)) ∧
    (refresh_token cfg0 (refresh_token cfg0 [] 1 (generate_refresh_token cfg0 0 alice)).2
      2 (generate_refresh_token cfg0 0 alice)).1 =
      Except.error AuthError.Unauthorized ∧
    (2 < (generate_refresh_token cfg0 0 alice).exp →
      is_token_blacklisted (refresh_token cfg0 [] 1 (generate_refresh_token cfg0 0 alice)).2
        (generate_refresh_token cfg0 0 alice) 2 = true) :=
  rotation_single_use cfg0 [] alice 0 1 2 (generate_refresh_token cfg0 0 alice)
    rfl rfl (by decide) (by decide) (by decide)

/-- C9: the refresh path never consults the session record — a valid,
unexpired, non-blacklisted refresh token T for user u refreshes
successfully even while the stored session record for u holds a
different token S. -/
theorem refresh_ignores_session (cfg : JwtConfig) (kv : KV) (u : User)
    (t0 t1 : Nat) (T S : Claims)
    (hT : T = generate_refresh_token cfg t0 u)
    (hbl : KV.get kv (Key.blacklisted_token T) t1 = none)
    (h1 : t1 < T.exp)
    (hsess : KV.get kv (Key.session u.id) t1 = some (KVValue.tok S))
    (hne : S ≠ T) :
    (refresh_token cfg kv t1 T).1 =
      Except.ok { access_token := generate_access_token cfg t1 (mock_user u.id t1) []
                  token_type := "Bearer", expires_in := cfg.access_token_expiry } := by
  have htype : T.token_type = TokenType.Refresh := by rw [hT]; rfl
  have hsub : T.sub = u.id := by rw [hT]; rfl
  have hnotbl : is_token_blacklisted kv T t1 = false := by
    simp [is_token_blacklisted, hbl]
  simp [refresh_token, validate_token, h1, htype, hnotbl,
    rotate_refresh_token, mock_user, hsub]

/-- C9 witness: alice's session record holds a refresh token issued at
time 999 while the presented one was issued at time 0; the refresh at
time 1 still succeeds. -/
theorem refresh_ignores_session_witness :
    (refresh_token cfg0
      (KV.set [] (Key.session 7) (KVValue.tok (generate_refresh_token cfg0 999 alice))
        0 604800)
      1 (generate_refresh_token cfg0 0 alice)).1 =
      Except.ok { access_token := generate_access_token cfg0 1 (mock_user alice.id 1) []
                  token_type := "Bearer", expires_in := cfg0.access_token_expiry } :=
  refresh_ignores_session cfg0
    (KV.set [] (Key.session 7) (KVValue.tok (generate_refresh_token cfg0 999 alice))
      0 604800)
    alice 0 1 (generate_refresh_token cfg0 0 alice)
    (generate_refresh_token cfg0 999 alice)
    rfl rfl (by decide) (by decide) (by decide)

theorem key_session_ne_oauth (uid : Nat) (csrf : String) :
    Key.session uid ≠ Key.oauth_session csrf := by
  intro h
  cases h

theorem KV.get_set_session_oauth (kv : KV) (uid : Nat) (v : KVValue)
    (n ttl t : Nat) (csrf : String) :
    KV.get (KV.set kv (Key.session uid) v n ttl) (Key.oauth_session csrf) t =
      KV.get kv (Key.oauth_session csrf) t :=
  KV.get_set_ne _ _ _ _ _ (key_session_ne_oauth uid csrf)

/-- C3: the federated-login handshake is single use. When a handshake
record is stored for a csrf value, the callback deletes it before the
code exchange, so after any first callback presenting that csrf — no
matter how the rest of that callback went (missing clients, failed
exchange, failed profile fetch, found or created user) — the record is
gone at every probe time, and a second callback presenting the same
csrf fails with BadRequest "Invalid or expired OAuth session". -/
theorem oauth_callback_single_use (env1 env2 : OAuthEnv) (cfg : JwtConfig)
    (db1 db2 : List User) (kv : KV) (t1 t2 t3 : Nat) (csrf : String)
    (code1 code2 : String) (ed1 ed2 : Option String) (s : OAuthSession)
    (hrec : KV.get kv (Key.oauth_session csrf) t1 = some (KVValue.oauth s)) :
    KV.get (oauth_callback env1 cfg db1 kv t1
        { code := some code1, state := some csrf, error := none
          error_description := ed1 }).2.1 (Key.oauth_session csrf) t3 = none ∧
    (oauth_callback env2 cfg db2
      (oauth_callback env1 cfg db1 kv t1
        { code := some code1, state := some csrf, error := none
          error_description := ed1 }).2.1 t2
      { code := some code2, state := some csrf, error := none
        error_description := ed2 }).1 =
      Except.error (AuthError.BadRequest "Invalid or expired OAuth session") := by
  have hdel : ∀ t, KV.get (oauth_callback env1 cfg db1 kv t1
      { code := some code1, state := some csrf, error := none
        error_description := ed1 }).2.1 (Key.oauth_session csrf) t = none := by
    intro t
    simp only [oauth_callback, hrec]
    repeat' split
    all_goals simp [KV.get_set_session_oauth, KV.get_delete_self]
  refine ⟨hdel t3, ?_⟩
  have h2 := hdel t2
  generalize hkv1 : (oauth_callback env1 cfg db1 kv t1
      { code := some code1, state := some csrf, error := none
        error_description := ed1 }).2.1 = kv1 at h2 ⊢
  simp [oauth_callback, h2]

/-- C3 witness: an Apple handshake record stored at time 0 with the
300 s TTL, first callback at time 1 (exchange and profile available,
empty user table), probe and replay at time 2. -/
theorem oauth_callback_single_use_witness :
    KV.get (oauth_callback
        { has_google_client := true, has_apple_client := true
          exchange_code := fun _ _ _ => some "ptok"
          google_userinfo := fun _ => none }
        cfg0 []
        (KV.set [] (Key.oauth_session "st")
          (KVValue.oauth { csrf_token := "st", pkce_verifier := "ver"
                           provider := OAuthProvider.Apple, created_at := 0 }) 0 300)
        1 { code := some "code", state := some "st", error := none
            error_description := none }).2.1 (Key.oauth_session "st") 2 = none ∧
    (oauth_callback
      { has_google_client := true, has_apple_client := true
        exchange_code := fun _ _ _ => some "ptok"
        google_userinfo := fun _ => none }
      cfg0 []
      (oauth_callback
        { has_google_client := true, has_apple_client := true
          exchange_code := fun _ _ _ => some "ptok"
          google_userinfo := fun _ => none }
        cfg0 []
        (KV.set [] (Key.oauth_session "st")
          (KVValue.oauth { csrf_token := "st", pkce_verifier := "ver"
                           provider := OAuthProvider.Apple, created_at := 0 }) 0 300)
        1 { code := some "code", state := some "st", error := none
            error_description := none }).2.1
      2 { code := some "code2", state := some "st", error := none
          error_description := none }).1 =
      Except.error (AuthError.BadRequest "Invalid or expired OAuth session") :=
  oauth_callback_single_use
    { has_google_client := true, has_apple_client := true
      exchange_code := fun _ _ _ => some "ptok"
      google_userinfo := fun _ => none }
    { has_google_client := true, has_apple_client := true
      exchange_code := fun _ _ _ => some "ptok"
      google_userinfo := fun _ => none }
    cfg0 [] []
    (KV.set [] (Key.oauth_session "st")
      (KVValue.oauth { csrf_token := "st", pkce_verifier := "ver"
                       provider := OAuthProvider.Apple, created_at := 0 }) 0 300)
    1 2 2 "st" "code" "code2" none none
    { csrf_token := "st", pkce_verifier := "ver"
      provider := OAuthProvider.Apple, created_at := 0 }
    (by decide)


theorem find_by_username_or_email_isSome (db : List User) (s : String)
    (h : ∃ u ∈ db, u.username = s ∨ u.email = s) :
    (find_by_username_or_email db s).isSome = true := by
  obtain ⟨u, hmem, hcase⟩ := h
  rw [find_by_username_or_email, List.find?_isSome]
  refine ⟨u, hmem, ?_⟩
  rcases hcase with h1 | h1 <;> simp [h1]

/-- C8 (amended): a registration whose (validation-passing) username
or email already belongs to an existing account fails with an error of
kind BadRequest — HTTP 400, the message naming the duplicate field —
and the user table is unchanged, so no account is created. (The
source's `AuthError` has no Conflict variant; 409 is never
produced.) -/
theorem register_duplicate_rejected (db : List User) (p : RegisterRequest)
    (hu : validate_username p.username = Except.ok ())
    (he : validate_email p.email = Except.ok ())
    (hp : validate_password p.password = Except.ok ())
    (hdup : (∃ u ∈ db, u.username = p.username) ∨ (∃ u ∈ db, u.email = p.email)) :
    (∃ msg, (register db p).1 = Except.error (AuthError.BadRequest msg) ∧
      AuthError.status (AuthError.BadRequest msg) = 400) ∧
    (register db p).2 = db := by
  cases hfu : find_by_username_or_email db p.username with
  | some u =>
    constructor
    · exact ⟨"Username already exists", by simp [register, hu, he, hp, hfu], rfl⟩
    · simp [register, hu, he, hp, hfu]
  | none =>
    have hemail : ∃ u ∈ db, u.email = p.email := by
      rcases hdup with hname | hmail
      · exfalso
        obtain ⟨u, hmem, heq⟩ := hname
        have := find_by_username_or_email_isSome db p.username ⟨u, hmem, Or.inl heq⟩
        rw [hfu] at this
        simp at this
      · exact hmail
    have hsome : (find_by_username_or_email db p.email).isSome = true := by
      obtain ⟨u, hmem, heq⟩ := hemail
      exact find_by_username_or_email_isSome db p.email ⟨u, hmem, Or.inr heq⟩
    cases hfe : find_by_username_or_email db p.email with
    | none => rw [hfe] at hsome; simp at hsome
    | some u =>
      constructor
      · exact ⟨"Email already exists", by simp [register, hu, he, hp, hfu, hfe], rfl⟩
      · simp [register, hu, he, hp, hfu, hfe]

/-- C8 witness: registering the taken username "alice" (with a fresh
email) against a table already holding alice: BadRequest, table
unchanged. -/
theorem register_duplicate_rejected_witness :
    (∃ msg, (register [alice]
      { username := "alice", email := "bob@example.com", password := "Abcdef1!" }).1 =
        Except.error (AuthError.BadRequest msg) ∧
      AuthError.status (AuthError.BadRequest msg) = 400) ∧
    (register [alice]
      { username := "alice", email := "bob@example.com", password := "Abcdef1!" }).2 =
      [alice] :=
  register_duplicate_rejected [alice]
    { username := "alice", email := "bob@example.com", password := "Abcdef1!" }
    (by decide) (by decide) (by decide)
    (Or.inl ⟨alice, by decide, by decide⟩)

/-- C8 counterexample: at the concrete duplicate registration of
username "alice" the handler returns BadRequest "Username already
exists" with HTTP status 400, not an error of kind Conflict (409);
no Conflict variant exists in `AuthError` at all. -/
theorem register_conflict_counterexample :
    register [alice]
      { username := "alice", email := "bob@example.com", password := "Abcdef1!" } =
      (Except.error (AuthError.BadRequest "Username already exists"), [alice]) ∧
    AuthError.status (AuthError.BadRequest "Username already exists") = 400 ∧
    (400 : Nat) ≠ 409 := by
  refine ⟨by decide, rfl, by decide⟩

/-- C2: the login pipeline never consults the rate limiter. At a
concrete state where the limiter has key "1.2.3.4" banned until time
10000 (so `is_allowed` at time 200 returns false), a login request at
time 200 with valid credentials still succeeds: the `login` handler
as written performs no `is_allowed` call (the `RateLimiter` sits
unused in `AppState`), contradicting the claim that a banned key's
login is rejected with Unauthorized before the credential check. -/
theorem login_bypasses_rate_limiter :
    (is_allowed RateLimiterConfig.default
      (fun _ => some { attempts := 5, last_attempt := 100, ban_expires := some 10000 })
      "1.2.3.4" 200).1 = false ∧
    (login [alice] (fun _ _ => true) cfg0 [] 200
      { username_or_email := "alice", password := "Abcdef1!" }).1 =
      Except.ok { access_token := generate_access_token cfg0 200 alice []
                  refresh_token := generate_refresh_token cfg0 200 alice
                  token_type := "Bearer", expires_in := cfg0.access_token_expiry } := by
  refine ⟨by decide, by decide⟩

end AuthService
